import Mathlib

/-!
A shallow embedding of the server-side RPC interception core of the
`markfairy/gitpod` repository:

* `src/components/server/src/auth/rate-limiter.ts` — the tiered rate limiter
  (`UserRateLimiter`, `AnonymRateLimiter`, the method→tier classification table);
* `src/components/server/src/websocket-connection-manager.ts` — the
  per-connection request pipeline (`GitpodJsonRpcProxyFactory.onRequest` /
  `onNotification`) and the live-connection registry
  (`WebsocketConnectionManager`);
* `src/components/server/src/prometheusMetrics.ts` — the metric counters.

JavaScript state is modelled by explicit state passing; throwing a
`ResponseError` is modelled as returning the corresponding `CallResult`
constructor; the external `rate-limiter-flexible` in-memory limiter is
modelled from the spec (see `RateLimiterMemory`).
-/

set_option autoImplicit false

namespace Gitpod

/-! ## Operation classification (rate-limiter.ts, lines 133–216) -/

/-- `enum MethodType { One, Two, Three }` (rate-limiter.ts, lines 212–216). -/
inductive MethodType where
  | One
  | Two
  | Three
deriving DecidableEq, Repr

set_option maxHeartbeats 1600000 in
/-- `UserRateLimiter.methodTypeMappingObject()` (rate-limiter.ts, lines
133–209): the static operation-classification table, in source order. -/
def methodTypeMappingObject : List (String × MethodType) :=
  [ ("getLoggedInUser", .One),
    ("getTerms", .One),
    ("updateLoggedInUser", .One),
    ("getAuthProviders", .One),
    ("getOwnAuthProviders", .One),
    ("updateOwnAuthProvider", .One),
    ("deleteOwnAuthProvider", .One),
    ("getBranding", .One),
    ("getConfiguration", .One),
    ("getToken", .One),
    ("getPortAuthenticationToken", .One),
    ("deleteAccount", .One),
    ("getClientRegion", .One),
    ("hasPermission", .One),
    ("getWorkspaces", .One),
    ("getWorkspaceOwner", .One),
    ("getWorkspaceUsers", .One),
    ("getFeaturedRepositories", .One),
    ("getWorkspace", .One),
    ("isWorkspaceOwner", .One),
    ("createWorkspace", .One),
    ("startWorkspace", .One),
    ("stopWorkspace", .One),
    ("deleteWorkspace", .One),
    ("setWorkspaceDescription", .One),
    ("controlAdmission", .One),
    ("updateWorkspaceUserPin", .One),
    ("sendHeartBeat", .One),
    ("watchWorkspaceImageBuildLogs", .One),
    ("watchHeadlessWorkspaceLogs", .One),
    ("isPrebuildDone", .One),
    ("setWorkspaceTimeout", .One),
    ("getWorkspaceTimeout", .One),
    ("getOpenPorts", .One),
    ("openPort", .One),
    ("closePort", .One),
    ("getUserMessages", .One),
    ("updateUserMessages", .One),
    ("getUserStorageResource", .One),
    ("updateUserStorageResource", .One),
    ("getEnvVars", .One),
    ("setEnvVar", .One),
    ("deleteEnvVar", .One),
    ("getContentBlobUploadUrl", .One),
    ("getContentBlobDownloadUrl", .One),
    ("getGitpodTokens", .One),
    ("generateNewGitpodToken", .One),
    ("deleteGitpodToken", .One),
    ("sendFeedback", .One),
    ("registerGithubApp", .One),
    ("takeSnapshot", .One),
    ("getSnapshots", .One),
    ("storeLayout", .One),
    ("getLayout", .One),
    ("preparePluginUpload", .One),
    ("resolvePlugins", .One),
    ("installUserPlugins", .One),
    ("uninstallUserPlugin", .One),
    ("adminGetUsers", .One),
    ("adminGetUser", .One),
    ("adminBlockUser", .One),
    ("adminDeleteUser", .One),
    ("adminModifyRoleOrPermission", .One),
    ("adminModifyPermanentWorkspaceFeatureFlag", .One),
    ("adminGetWorkspaces", .One),
    ("adminGetWorkspace", .One),
    ("adminForceStopWorkspace", .One),
    ("adminSetLicense", .One),
    ("validateLicense", .One),
    ("getLicenseInfo", .One),
    ("licenseIncludesFeature", .One) ]

/-- `Map.get` on `new Map(Object.entries(methodTypeMappingObject()))`
(rate-limiter.ts, lines 129–131): first entry with the given key. -/
def mapGet (method : String) : List (String × MethodType) → Option MethodType
  | [] => none
  | (k, v) :: rest => if k = method then some v else mapGet method rest

/-- `UserRateLimiter.methodTypeMapping().get(method)` (rate-limiter.ts, line 126). -/
def methodTypeOf (method : String) : Option MethodType :=
  mapGet method methodTypeMappingObject

/-- `UserRateLimiter.isGroupType(method, type)` (rate-limiter.ts, lines 125–127). -/
def isGroupType (method : String) (t : MethodType) : Bool :=
  methodTypeOf method == some t

/-- `UserRateLimiter.isGroupOneMethod` (rate-limiter.ts, lines 113–115). -/
def isGroupOneMethod (method : String) : Bool := isGroupType method .One

/-- `UserRateLimiter.isGroupTwoMethod` (rate-limiter.ts, lines 117–119). -/
def isGroupTwoMethod (method : String) : Bool := isGroupType method .Two

/-- `UserRateLimiter.isGroupThreeMethod` (rate-limiter.ts, lines 121–123). -/
def isGroupThreeMethod (method : String) : Bool := isGroupType method .Three

/-! ## Configuration (rate-limiter.ts, constructors) -/

/-- `Number(process.env.X) || d`: an environment knob falls back to the default
when absent; the string `"0"` is converted to the falsy number `0` and also
falls back.  Absent/NaN values are modelled as `none`. -/
def envNum (env : Option Nat) (d : Nat) : Nat :=
  match env with
  | some n => if n = 0 then d else n
  | none => d

/-- The `process.env.RATE_LIMITER_*` knobs read by the two constructors
(rate-limiter.ts, lines 36–39 and 77–91). -/
structure RateLimiterEnv where
  anonPoints : Option Nat := none
  anonDuration : Option Nat := none
  onePoints : Option Nat := none
  oneDuration : Option Nat := none
  twoPoints : Option Nat := none
  twoDuration : Option Nat := none
  threePoints : Option Nat := none
  threeDuration : Option Nat := none
deriving Repr

/-- An environment with no rate-limiter knob set: every quota defaults. -/
def defaultEnv : RateLimiterEnv := {}

/-! ## The in-memory limiter (external `rate-limiter-flexible` dependency) -/

/-- Modelled from the spec: the external `rate-limiter-flexible`
`RateLimiterMemory` the two limiter classes instantiate (its code is not part
of this repository).  Per spec §4.1: each key owns an independent fixed-window
counter of `points` available per `duration` seconds, refilling at each window
boundary; a consume decrements one point, and on exhaustion rejects, reporting
the milliseconds until the next refill (`msBeforeNext`).  `windows` maps a key
to its current window start (ms) and the points consumed in that window.
`chargedTotal` is a ghost observation: the total number of points successfully
charged over the limiter's whole history (used only to state quota-consumption
properties; no source behaviour reads it). -/
structure RateLimiterMemory where
  points : Nat
  duration : Nat
  windows : List (String × Nat × Nat) := []
  chargedTotal : Nat := 0
deriving Repr

/-- Look up the current window of a key. -/
def getWindow (key : String) : List (String × Nat × Nat) → Option (Nat × Nat)
  | [] => none
  | (k, w) :: rest => if k = key then some w else getWindow key rest

/-- Replace (or insert) the window of a key. -/
def setWindow (key : String) (w : Nat × Nat) :
    List (String × Nat × Nat) → List (String × Nat × Nat)
  | [] => [(key, w)]
  | (k, w₀) :: rest =>
      if k = key then (k, w) :: rest else (k, w₀) :: setWindow key w rest

/-- Outcome of one `consume` call on a `RateLimiterMemory`: admitted (with the
points remaining in the window), or rejected with `msBeforeNext`, the
milliseconds until the window refills. -/
inductive ConsumeResult where
  | ok (remainingPoints : Nat) (msBeforeNext : Nat)
  | rejected (msBeforeNext : Nat)
deriving DecidableEq, Repr

/-- Modelled from the spec: `RateLimiterMemory.consume(key)` at wall-clock time
`nowMs`.  A fresh or elapsed window restarts at `nowMs`; within a live window a
consume succeeds while fewer than `points` points are consumed, and otherwise
rejects with the time left in the window. -/
def RateLimiterMemory.consume (rl : RateLimiterMemory) (key : String)
    (nowMs : Nat) : RateLimiterMemory × ConsumeResult :=
  let windowMs := rl.duration * 1000
  match getWindow key rl.windows with
  | some (start, used) =>
      if nowMs < start + windowMs then
        if used < rl.points then
          ({ rl with windows := setWindow key (start, used + 1) rl.windows,
                     chargedTotal := rl.chargedTotal + 1 },
           .ok (rl.points - (used + 1)) (start + windowMs - nowMs))
        else
          (rl, .rejected (start + windowMs - nowMs))
      else
        if 0 < rl.points then
          ({ rl with windows := setWindow key (nowMs, 1) rl.windows,
                     chargedTotal := rl.chargedTotal + 1 },
           .ok (rl.points - 1) windowMs)
        else
          (rl, .rejected windowMs)
  | none =>
      if 0 < rl.points then
        ({ rl with windows := setWindow key (nowMs, 1) rl.windows,
                   chargedTotal := rl.chargedTotal + 1 },
         .ok (rl.points - 1) windowMs)
      else
        (rl, .rejected windowMs)

/-! ## AnonymRateLimiter (rate-limiter.ts, lines 21–45)

All anonymous connections obtain the one process-wide singleton
(`AnonymRateLimiter.instance()`, lines 24–29), so they all consume from the
same `RateLimiterMemory` state; modelled by every anonymous connection
threading the same `AnonymRateLimiter` value. -/

/-- The `user` field of `AnonymRateLimiter` (rate-limiter.ts, line 31). -/
def anonymUser : String := "(anonym)"

/-- The singleton's private constructor (rate-limiter.ts, lines 35–40):
`points` default 10, `duration` default 60 seconds. -/
def AnonymRateLimiter.make (env : RateLimiterEnv) : RateLimiterMemory :=
  { points := envNum env.anonPoints 10, duration := envNum env.anonDuration 60 }

/-- The key `AnonymRateLimiter.consume(method)` passes to the underlying
limiter (rate-limiter.ts, line 43): `this.rateLimiter.consume(method)` — the
key is the operation name, not the anonymous-user sentinel. -/
def AnonymRateLimiter.consumeKey (method : String) : String := method

/-- `AnonymRateLimiter.consume(method)` (rate-limiter.ts, lines 42–44). -/
def AnonymRateLimiter.consume (rl : RateLimiterMemory) (method : String)
    (nowMs : Nat) : RateLimiterMemory × ConsumeResult :=
  rl.consume (AnonymRateLimiter.consumeKey method) nowMs

/-! ## UserRateLimiter (rate-limiter.ts, lines 47–210) -/

/-- One `UserRateLimiter` instance: per-user, with the three tier limiters
built in the constructor (rate-limiter.ts, lines 75–92). -/
structure UserRateLimiter where
  user : String
  rateLimiterOne : RateLimiterMemory
  rateLimiterTwo : RateLimiterMemory
  rateLimiterThree : RateLimiterMemory
deriving Repr

/-- The `UserRateLimiter` constructor (rate-limiter.ts, lines 75–92):
tier one defaults to 5 points / 60 s, tier two to 15 / 60, tier three to
10 / 60. -/
def UserRateLimiter.make (env : RateLimiterEnv) (user : String) :
    UserRateLimiter :=
  { user := user
    rateLimiterOne :=
      { points := envNum env.onePoints 5, duration := envNum env.oneDuration 60 }
    rateLimiterTwo :=
      { points := envNum env.twoPoints 15, duration := envNum env.twoDuration 60 }
    rateLimiterThree :=
      { points := envNum env.threePoints 10, duration := envNum env.threeDuration 60 } }

/-- Names the internal limiter instance a user-limiter consume charges. -/
inductive UsedTier where
  | one
  | two
  | three
deriving DecidableEq, Repr

/-- The branch structure of `UserRateLimiter.consume` (rate-limiter.ts, lines
94–111): which internal limiter a method is charged against, and whether the
`log.warn` fallback observation fires (second component). -/
def consumeTier (method : String) : UsedTier × Bool :=
  if isGroupOneMethod method then (.one, false)
  else if isGroupTwoMethod method then (.two, false)
  else if isGroupThreeMethod method then (.three, false)
  else (.three, true)

/-- The configured points of an internal limiter instance. -/
def UserRateLimiter.tierPoints (rl : UserRateLimiter) : UsedTier → Nat
  | .one => rl.rateLimiterOne.points
  | .two => rl.rateLimiterTwo.points
  | .three => rl.rateLimiterThree.points

/-- `UserRateLimiter.consume(method)` (rate-limiter.ts, lines 94–111): pick the
tier limiter by classification (falling back to `rateLimiterThree` with a
warning for unclassified methods) and consume one point under the key
`this.user`.  The `Bool` is true when the fallback `log.warn` fired. -/
def UserRateLimiter.consume (rl : UserRateLimiter) (method : String)
    (nowMs : Nat) : UserRateLimiter × ConsumeResult × Bool :=
  if isGroupOneMethod method then
    ({ rl with rateLimiterOne := (rl.rateLimiterOne.consume rl.user nowMs).1 },
     (rl.rateLimiterOne.consume rl.user nowMs).2, false)
  else if isGroupTwoMethod method then
    ({ rl with rateLimiterTwo := (rl.rateLimiterTwo.consume rl.user nowMs).1 },
     (rl.rateLimiterTwo.consume rl.user nowMs).2, false)
  else if isGroupThreeMethod method then
    ({ rl with rateLimiterThree := (rl.rateLimiterThree.consume rl.user nowMs).1 },
     (rl.rateLimiterThree.consume rl.user nowMs).2, false)
  else
    ({ rl with rateLimiterThree := (rl.rateLimiterThree.consume rl.user nowMs).1 },
     (rl.rateLimiterThree.consume rl.user nowMs).2, true)

/-- The `RateLimiter` interface value bound to a connection
(`WebsocketConnectionManager.createRateLimiter`, websocket-connection-manager.ts
lines 94–101): `UserRateLimiter.instance(user.id)` for an authenticated user,
else the `AnonymRateLimiter` singleton. -/
inductive BoundRateLimiter where
  | anonym (rl : RateLimiterMemory)
  | user (rl : UserRateLimiter)
deriving Repr

/-- Dispatch of `this.rateLimiter.consume(method)` through the `RateLimiter`
interface; the `Bool` is true when the user-limiter fallback warning fired. -/
def BoundRateLimiter.consume :
    BoundRateLimiter → String → Nat → BoundRateLimiter × ConsumeResult × Bool
  | .anonym rl, method, nowMs =>
      (.anonym (AnonymRateLimiter.consume rl method nowMs).1,
       (AnonymRateLimiter.consume rl method nowMs).2, false)
  | .user rl, method, nowMs =>
      (.user (rl.consume method nowMs).1,
       (rl.consume method nowMs).2.1, (rl.consume method nowMs).2.2)

/-- Ghost observation: total points ever charged by the bound limiter. -/
def BoundRateLimiter.chargedTotal : BoundRateLimiter → Nat
  | .anonym rl => rl.chargedTotal
  | .user rl =>
      rl.rateLimiterOne.chargedTotal + rl.rateLimiterTwo.chargedTotal +
        rl.rateLimiterThree.chargedTotal

/-! ## The Retry-After header (websocket-connection-manager.ts, line 173) -/

/-- `Math.round(msBeforeNext / 1000)` for a non-negative number of
milliseconds: JavaScript rounds half away from zero. -/
def jsRoundDiv1000 (ms : Nat) : Nat := (ms + 500) / 1000

/-- The `"Retry-After"` detail value
(websocket-connection-manager.ts, line 173):
`String(Math.round(rlRejected.msBeforeNext / 1000)) || 1`.
`String(n)` of a number is never the empty string, so it is never falsy and
the `|| 1` alternative (modelled by the empty-string test, the only falsy
string) is unreachable — in particular `String(0)` is the truthy `"0"`. -/
def retryAfterHeader (msBeforeNext : Nat) : String :=
  let s := toString (jsRoundDiv1000 msBeforeNext)
  if s = "" then "1" else s

/-! ## The request pipeline
(`GitpodJsonRpcProxyFactory`, websocket-connection-manager.ts, lines 152–196) -/

/-- The levels of the `log.*` calls the pipeline makes. -/
inductive LogLevel where
  | debug
  | info
  | warn
  | error
deriving DecidableEq, Repr

/-- What `await this.target[method](...args)` does (line 182): return a value,
throw a structured caller-facing `ResponseError`, or throw any other error
(carrying whatever internal detail it carries). -/
inductive HandlerOutcome where
  | ok (value : String)
  | responseError (code : Int) (message : String)
  | error (detail : String)
deriving DecidableEq, Repr

/-- What one inbound call returns to the transport: a result, or a thrown
value.  `tooManyRequests` is the `ResponseError(TOO_MANY_REQUESTS, "too many
requests", \x7b "Retry-After": ... \x7d)` of line 173, `permissionDenied` the
`ResponseError(PERMISSION_DENIED, "not allowed")` of line 178,
`invalidRequest` the `ResponseError(InvalidRequest, "notifications are not
supported")` of line 194; `responseError` and `error` are a handler failure
rethrown by line 189, kept unwrapped exactly as thrown. -/
inductive CallResult where
  | result (value : String)
  | tooManyRequests (retryAfter : String)
  | permissionDenied
  | responseError (code : Int) (message : String)
  | error (detail : String)
  | invalidRequest
deriving DecidableEq, Repr

/-- Is a call result a structured, caller-facing `ResponseError`?  (Everything
the pipeline itself throws is; a rethrown non-`ResponseError` handler failure
is not.) -/
def CallResult.isStructured : CallResult → Bool
  | .result _ => false
  | .error _ => false
  | _ => true

/-- Bump the per-method call count (`increaseApiCallCounter`,
prometheusMetrics.ts lines 48–50: `apiCallCounter.inc(\x7b method \x7d)`). -/
def bumpCount (method : String) : List (String × Nat) → List (String × Nat)
  | [] => [(method, 1)]
  | (m, n) :: rest =>
      if m = method then (m, n + 1) :: rest else (m, n) :: bumpCount method rest

/-- The per-method value of the `gitpod_api_call` counter. -/
def getCount (method : String) : List (String × Nat) → Nat
  | [] => 0
  | (m, n) :: rest => if m = method then n else getCount method rest

/-- The mutable state one `GitpodJsonRpcProxyFactory.onRequest` call touches:
the `gitpod_api_call` metric, the connection's bound rate limiter, the log
sink, and a ghost count of how many times the handler (`this.target[method]`)
was invoked. -/
structure CallState where
  apiCallCounts : List (String × Nat) := []
  limiter : BoundRateLimiter
  logs : List LogLevel := []
  handlerCalls : Nat := 0
deriving Repr

/-- `GitpodJsonRpcProxyFactory.onRequest(method, ...args)`
(websocket-connection-manager.ts, lines 161–191), for a call arriving at time
`nowMs`:
1. `increaseApiCallCounter(method)` (line 162), unconditionally;
2. `this.rateLimiter.consume(method)` (line 165): on quota rejection, throw
   `TOO_MANY_REQUESTS` with the Retry-After detail (lines 172–173) and stop;
   on success, `log.debug` (line 166);
3. `this.accessGuard.canAccess(method)` (line 176): on denial, `log.error`
   and throw `PERMISSION_DENIED` (lines 177–178) — the handler is not invoked;
4. invoke the handler (line 182); a `ResponseError` it throws is logged at
   info level, any other failure at error level, and either is rethrown
   unchanged (lines 183–190).
The `log.warn` of the user-limiter fallback (rate-limiter.ts, line 109) is
recorded when its flag fires. -/
def onRequest (guard : String → Bool) (handler : String → HandlerOutcome)
    (st : CallState) (method : String) (nowMs : Nat) : CallState × CallResult :=
  let counted := { st with apiCallCounts := bumpCount method st.apiCallCounts }
  let c := st.limiter.consume method nowMs
  let consumed :=
    { counted with
        limiter := c.1,
        logs := if c.2.2 then counted.logs ++ [LogLevel.warn] else counted.logs }
  match c.2.1 with
  | .rejected msBeforeNext =>
      ({ consumed with logs := consumed.logs ++ [LogLevel.warn] },
       .tooManyRequests (retryAfterHeader msBeforeNext))
  | .ok _ _ =>
      let admitted := { consumed with logs := consumed.logs ++ [LogLevel.debug] }
      if !(guard method) then
        ({ admitted with logs := admitted.logs ++ [LogLevel.error] },
         .permissionDenied)
      else
        let dispatched := { admitted with handlerCalls := admitted.handlerCalls + 1 }
        match handler method with
        | .ok v => (dispatched, .result v)
        | .responseError c m =>
            ({ dispatched with logs := dispatched.logs ++ [LogLevel.info] },
             .responseError c m)
        | .error d =>
            ({ dispatched with logs := dispatched.logs ++ [LogLevel.error] },
             .error d)

/-- `GitpodJsonRpcProxyFactory.onNotification(method, ...args)`
(websocket-connection-manager.ts, lines 193–195): unconditionally throw
`ResponseError(InvalidRequest, "notifications are not supported")`; nothing
else runs, so the state is untouched. -/
def onNotification (st : CallState) (_method : String) : CallState × CallResult :=
  (st, .invalidRequest)

/-- The call state of a freshly established anonymous connection under the
default configuration: no calls recorded, the singleton anonymous limiter
fresh. -/
def freshAnonymCallState : CallState :=
  { limiter := BoundRateLimiter.anonym (AnonymRateLimiter.make defaultEnv) }

/-! ## The connection registry and its metrics
(`WebsocketConnectionManager`, websocket-connection-manager.ts, lines 29–129;
counters from prometheusMetrics.ts, lines 21–39) -/

/-- A `GitpodServerImpl` handler instance, identified by its `uuid` — the only
attribute `removeServer` inspects (websocket-connection-manager.ts, line 124). -/
structure GitpodServerImpl where
  uuid : String
deriving DecidableEq, Repr

/-- The index of the first server with the given uuid
(`this.servers.findIndex(s => s.uuid === oddServer.uuid)`,
websocket-connection-manager.ts, line 124). -/
def findServerIdx (uuid : String) : List GitpodServerImpl → Option Nat
  | [] => none
  | s :: rest =>
      if s.uuid = uuid then some 0 else Option.map Nat.succ (findServerIdx uuid rest)

/-- `WebsocketConnectionManager.removeServer(oddServer)`
(websocket-connection-manager.ts, lines 123–128): find the first index whose
uuid matches, and if found, `this.servers.splice(index)` — `splice` called
with no delete count removes every element from `index` to the end of the
array, leaving only the prefix before `index`. -/
def removeServer (servers : List GitpodServerImpl) (oddServer : GitpodServerImpl) :
    List GitpodServerImpl :=
  match findServerIdx oddServer.uuid servers with
  | some index => servers.take index
  | none => servers

/-- The state of one `WebsocketConnectionManager` together with the metric
counters of prometheusMetrics.ts.  `createdEmits` / `closedEmits` count the
`this.events.emit(EVENT_CONNECTION_CREATED / _CLOSED, ...)` notifications
delivered to the event emitter; `createdListeners` / `closedListeners` the
subscriptions currently registered; `apiConnectionCounter` /
`apiConnectionClosedCounter` are the `gitpod_api_connection` and
`gitpod_api_connection_closed` Prometheus counters. -/
structure ManagerState where
  servers : List GitpodServerImpl := []
  createdEmits : Nat := 0
  closedEmits : Nat := 0
  createdListeners : Nat := 0
  closedListeners : Nat := 0
  apiConnectionCounter : Nat := 0
  apiConnectionClosedCounter : Nat := 0
deriving DecidableEq, Repr

/-- `increaseApiConnectionCounter()` (prometheusMetrics.ts, lines 27–29):
increment the counter documented as "Total amount of established API
connections". -/
def increaseApiConnectionCounter (st : ManagerState) : ManagerState :=
  { st with apiConnectionCounter := st.apiConnectionCounter + 1 }

/-- `increaseApiConnectionClosedCounter()` (prometheusMetrics.ts, lines
37–39): increment the counter documented as "Total amount of closed API
connections". -/
def increaseApiConnectionClosedCounter (st : ManagerState) : ManagerState :=
  { st with apiConnectionClosedCounter := st.apiConnectionClosedCounter + 1 }

/-- The registry effects of `WebsocketConnectionManager.createProxyTarget`
(websocket-connection-manager.ts, lines 53–92) when a connection is
established: push the new handler onto `this.servers` (line 81) and emit
`EVENT_CONNECTION_CREATED` (line 83).  No Prometheus counter is touched on
this path. -/
def createProxyTarget (st : ManagerState) (server : GitpodServerImpl) :
    ManagerState :=
  { st with servers := st.servers ++ [server],
            createdEmits := st.createdEmits + 1 }

/-- The `client.onDidCloseConnection` callback registered by
`createProxyTarget` (websocket-connection-manager.ts, lines 75–80), run each
time the close signal is delivered: dispose the handler, `removeServer` it,
and emit `EVENT_CONNECTION_CLOSED`.  No Prometheus counter is touched on this
path. -/
def handleCloseConnection (st : ManagerState) (server : GitpodServerImpl) :
    ManagerState :=
  { st with servers := removeServer st.servers server,
            closedEmits := st.closedEmits + 1 }

/-- `WebsocketConnectionManager.onConnectionCreated(l)`
(websocket-connection-manager.ts, lines 107–113): subscribing an observer
calls `increaseApiConnectionCounter()` and registers the listener. -/
def onConnectionCreated (st : ManagerState) : ManagerState :=
  let st := increaseApiConnectionCounter st
  { st with createdListeners := st.createdListeners + 1 }

/-- `WebsocketConnectionManager.onConnectionClosed(l)`
(websocket-connection-manager.ts, lines 115–121): subscribing an observer
calls `increaseApiConnectionClosedCounter()` and registers the listener. -/
def onConnectionClosed (st : ManagerState) : ManagerState :=
  let st := increaseApiConnectionClosedCounter st
  { st with closedListeners := st.closedListeners + 1 }

/-- `WebsocketConnectionManager.currentConnectionCount`
(websocket-connection-manager.ts, lines 103–105). -/
def currentConnectionCount (st : ManagerState) : Nat :=
  st.servers.length

/-! ## Helper lemmas -/

/-- A successful `mapGet` lookup returns an entry of the table. -/
theorem mapGet_mem {method : String} {t : MethodType} :
    ∀ l : List (String × MethodType), mapGet method l = some t → (method, t) ∈ l := by
  intro l
  induction l with
  | nil => intro h; simp [mapGet] at h
  | cons p rest ih =>
      intro h
      obtain ⟨k, v⟩ := p
      by_cases hk : k = method
      · subst hk
        simp [mapGet] at h
        subst h
        exact List.mem_cons_self _ _
      · simp [mapGet, hk] at h
        exact List.mem_cons_of_mem _ (ih h)

/-- Every value in the classification table is `MethodType.One`. -/
theorem table_values_one : ∀ p ∈ methodTypeMappingObject, p.2 = MethodType.One := by
  decide

/-- Any classified method is classified as tier one. -/
theorem methodTypeOf_eq_one {method : String} {t : MethodType}
    (h : methodTypeOf method = some t) : t = MethodType.One :=
  table_values_one _ (mapGet_mem _ h)

/-- A `consume` that admits charges exactly one point (ghost counter). -/
theorem memory_consume_ok_charged (rl : RateLimiterMemory)
    (key : String) (nowMs : Nat) {rem ms : Nat}
    (h : (rl.consume key nowMs).2 = ConsumeResult.ok rem ms) :
    (rl.consume key nowMs).1.chargedTotal = rl.chargedTotal + 1 := by
  simp only [RateLimiterMemory.consume] at h ⊢
  cases hw : getWindow key rl.windows with
  | none =>
      simp only [hw] at h ⊢
      split_ifs at h ⊢
      simp_all
  | some w =>
      obtain ⟨start, used⟩ := w
      simp only [hw] at h ⊢
      split_ifs at h ⊢ <;> simp_all

/-- A `consume` through the `RateLimiter` interface that admits charges
exactly one point. -/
theorem bound_consume_ok_charged (b : BoundRateLimiter)
    (method : String) (nowMs : Nat) {rem ms : Nat}
    (h : (b.consume method nowMs).2.1 = ConsumeResult.ok rem ms) :
    (b.consume method nowMs).1.chargedTotal = b.chargedTotal + 1 := by
  cases b with
  | anonym rl =>
      simp [BoundRateLimiter.consume, BoundRateLimiter.chargedTotal] at h ⊢
      exact memory_consume_ok_charged _ _ _ h
  | user rl =>
      simp [BoundRateLimiter.consume, BoundRateLimiter.chargedTotal] at h ⊢
      unfold UserRateLimiter.consume at h ⊢
      split at h
      · have := memory_consume_ok_charged rl.rateLimiterOne rl.user nowMs (by simpa using h)
        simp_all; omega
      · split at h
        · have := memory_consume_ok_charged rl.rateLimiterTwo rl.user nowMs (by simpa using h)
          simp_all; omega
        · split at h
          · have := memory_consume_ok_charged rl.rateLimiterThree rl.user nowMs (by simpa using h)
            simp_all; omega
          · have := memory_consume_ok_charged rl.rateLimiterThree rl.user nowMs (by simpa using h)
            simp_all; omega

/-- `setWindow` on one key leaves every other key's window unchanged. -/
theorem getWindow_setWindow_ne {k k' : String} (hne : k' ≠ k) (w : Nat × Nat) :
    ∀ ws : List (String × Nat × Nat), getWindow k' (setWindow k w ws) = getWindow k' ws := by
  intro ws
  induction ws with
  | nil => simp [setWindow, getWindow, Ne.symm hne]
  | cons p rest ih =>
      obtain ⟨k₀, w₀⟩ := p
      by_cases hk : k₀ = k
      · subst hk
        simp [setWindow, getWindow, Ne.symm hne]
      · simp [setWindow, getWindow, hk, ih]

/-- A `consume` on one key leaves every other key's window unchanged. -/
theorem RateLimiterMemory.consume_frame (rl : RateLimiterMemory)
    {key key' : String} (hne : key' ≠ key) (nowMs : Nat) :
    getWindow key' (rl.consume key nowMs).1.windows = getWindow key' rl.windows := by
  simp only [RateLimiterMemory.consume]
  cases hw : getWindow key rl.windows with
  | none =>
      simp only [hw]
      split_ifs <;> simp [getWindow_setWindow_ne hne]
  | some w =>
      obtain ⟨start, used⟩ := w
      simp only [hw]
      split_ifs <;> simp [getWindow_setWindow_ne hne]

/-- The prefix of the live list strictly before the first uuid match holds no
further match. -/
theorem findServerIdx_take (u : String) :
    ∀ (l : List GitpodServerImpl) (i : Nat), findServerIdx u l = some i →
      findServerIdx u (l.take i) = none := by
  intro l
  induction l with
  | nil => intro i h; simp [findServerIdx] at h
  | cons s rest ih =>
      intro i h
      by_cases hs : s.uuid = u
      · simp [findServerIdx, hs] at h
        subst h
        simp [findServerIdx]
      · simp [findServerIdx, hs] at h
        obtain ⟨j, hj, hij⟩ := h
        subst hij
        simp [findServerIdx, hs, ih j hj]

/-- Removing the same server twice is a no-op the second time: the first
removal leaves no match behind. -/
theorem removeServer_idem (l : List GitpodServerImpl) (s : GitpodServerImpl) :
    removeServer (removeServer l s) s = removeServer l s := by
  cases h : findServerIdx s.uuid l with
  | none => simp [removeServer, h]
  | some i =>
      have h2 := findServerIdx_take s.uuid l i h
      simp [removeServer, h, h2]

/-! ## Claims -/

/-- C1, counterexample: the fallback for an operation absent from the
classification table (here `"fooBar"`) is the tier-three limiter, whose
default quota is 10 points per window — not the most restrictive configured
tier, since tier one has only 5 points per window. -/
theorem C1_counterexample_fallback_not_most_restrictive :
    methodTypeOf "fooBar" = none ∧
    consumeTier "fooBar" = (UsedTier.three, true) ∧
    (UserRateLimiter.make defaultEnv "alice").tierPoints UsedTier.three = 10 ∧
    (UserRateLimiter.make defaultEnv "alice").tierPoints UsedTier.one = 5 ∧
    ¬((UserRateLimiter.make defaultEnv "alice").tierPoints UsedTier.three ≤
        (UserRateLimiter.make defaultEnv "alice").tierPoints UsedTier.one) := by
  decide

/-- C1 (amended): for every operation name absent from the classification
table, `UserRateLimiter.consume` charges the call against the tier-three
("not critical") limiter's quota — the designated fallback tier, which under
the default configuration (10 points/60 s) is not the tier with the fewest
points — and emits a warning-level observation, rather than erroring: the
tier-one and tier-two limiters are untouched and the call's outcome is
exactly one tier-three consume under the user's key. -/
theorem C1_fallback_charges_tier_three (rl : UserRateLimiter) (method : String)
    (nowMs : Nat) (h : methodTypeOf method = none) :
    consumeTier method = (UsedTier.three, true) ∧
    (rl.consume method nowMs).2.2 = true ∧
    (rl.consume method nowMs).1.rateLimiterOne = rl.rateLimiterOne ∧
    (rl.consume method nowMs).1.rateLimiterTwo = rl.rateLimiterTwo ∧
    (rl.consume method nowMs).1.rateLimiterThree =
      (rl.rateLimiterThree.consume rl.user nowMs).1 ∧
    (rl.consume method nowMs).2.1 = (rl.rateLimiterThree.consume rl.user nowMs).2 := by
  have h1 : isGroupOneMethod method = false := by
    unfold isGroupOneMethod isGroupType; rw [h]; rfl
  have h2 : isGroupTwoMethod method = false := by
    unfold isGroupTwoMethod isGroupType; rw [h]; rfl
  have h3 : isGroupThreeMethod method = false := by
    unfold isGroupThreeMethod isGroupType; rw [h]; rfl
  refine ⟨by simp [consumeTier, h1, h2, h3], ?_⟩
  simp [UserRateLimiter.consume, h1, h2, h3]

/-- C1 witness: the amended fallback theorem applied to a fresh default-config
user limiter and the unclassified operation `"fooBar"`. -/
theorem C1_fallback_charges_tier_three_witness :
    methodTypeOf "fooBar" = none ∧
    (consumeTier "fooBar" = (UsedTier.three, true) ∧
     ((UserRateLimiter.make defaultEnv "alice").consume "fooBar" 0).2.2 = true ∧
     ((UserRateLimiter.make defaultEnv "alice").consume "fooBar" 0).1.rateLimiterOne =
       (UserRateLimiter.make defaultEnv "alice").rateLimiterOne ∧
     ((UserRateLimiter.make defaultEnv "alice").consume "fooBar" 0).1.rateLimiterTwo =
       (UserRateLimiter.make defaultEnv "alice").rateLimiterTwo ∧
     ((UserRateLimiter.make defaultEnv "alice").consume "fooBar" 0).1.rateLimiterThree =
       ((UserRateLimiter.make defaultEnv "alice").rateLimiterThree.consume
         (UserRateLimiter.make defaultEnv "alice").user 0).1 ∧
     ((UserRateLimiter.make defaultEnv "alice").consume "fooBar" 0).2.1 =
       ((UserRateLimiter.make defaultEnv "alice").rateLimiterThree.consume
         (UserRateLimiter.make defaultEnv "alice").user 0).2) :=
  ⟨by decide,
   C1_fallback_charges_tier_three (UserRateLimiter.make defaultEnv "alice") "fooBar" 0 (by decide)⟩

/-- C2, counterexample: two anonymous connections (both drawing on the one
singleton limiter state) calling two different operation names do not
decrement the same counter — `AnonymRateLimiter.consume` keys the underlying
limiter by the operation name, so after one consume of `"getWorkspace"` and
one of `"getLoggedInUser"` each of the two keys has one consumed point, and no
counter holds both. -/
theorem C2_counterexample_per_method_counters :
    AnonymRateLimiter.consumeKey "getWorkspace" ≠
      AnonymRateLimiter.consumeKey "getLoggedInUser" ∧
    (let rl0 := AnonymRateLimiter.make defaultEnv
     let rl1 := (AnonymRateLimiter.consume rl0 "getWorkspace" 0).1
     let rl2 := (AnonymRateLimiter.consume rl1 "getLoggedInUser" 0).1
     getWindow "getWorkspace" rl2.windows = some (0, 1) ∧
     getWindow "getLoggedInUser" rl2.windows = some (0, 1)) := by
  decide

/-- C2 (amended): all anonymous connections draw on the single
`AnonymRateLimiter` singleton, but its pool is keyed by operation name, not by
the anonymous sentinel: the key a consume uses is exactly the operation name
(so two anonymous connections calling the same operation decrement the same
counter), and a consume of one operation name leaves the counter of any other
operation name unchanged. -/
theorem C2_anonymous_pool_keyed_by_method (rl : RateLimiterMemory)
    (m₁ m₂ : String) (nowMs : Nat) (h : m₁ ≠ m₂) :
    AnonymRateLimiter.consumeKey m₁ = m₁ ∧
    AnonymRateLimiter.consumeKey m₂ = m₂ ∧
    getWindow m₂ (AnonymRateLimiter.consume rl m₁ nowMs).1.windows =
      getWindow m₂ rl.windows := by
  refine ⟨rfl, rfl, ?_⟩
  simp only [AnonymRateLimiter.consume, AnonymRateLimiter.consumeKey]
  exact RateLimiterMemory.consume_frame rl (Ne.symm h) nowMs

/-- C2 witness: the amended theorem applied to the fresh singleton state and
the two distinct operations `"getWorkspace"` and `"getLoggedInUser"`. -/
theorem C2_anonymous_pool_keyed_by_method_witness :
    "getWorkspace" ≠ "getLoggedInUser" ∧
    (AnonymRateLimiter.consumeKey "getWorkspace" = "getWorkspace" ∧
     AnonymRateLimiter.consumeKey "getLoggedInUser" = "getLoggedInUser" ∧
     getWindow "getLoggedInUser"
         (AnonymRateLimiter.consume (AnonymRateLimiter.make defaultEnv)
           "getWorkspace" 0).1.windows =
       getWindow "getLoggedInUser" (AnonymRateLimiter.make defaultEnv).windows) :=
  ⟨by decide,
   C2_anonymous_pool_keyed_by_method (AnonymRateLimiter.make defaultEnv)
     "getWorkspace" "getLoggedInUser" 0 (by decide)⟩

/-- C10: every operation in the reference classification table maps to
`MethodType.One`, and consequently every operation name is either classified
tier one (charged to the 5-points/60-s limiter, no warning) or absent from the
table (charged to the tier-three limiter through the warning fallback): the
tier-two limiter is never selected, and the tier-three limiter only through
the fallback path. -/
theorem C10_classification_all_tier_one :
    (methodTypeMappingObject.all fun p => p.2 == MethodType.One) = true ∧
    ∀ method : String,
      (methodTypeOf method = some MethodType.One ∧
        consumeTier method = (UsedTier.one, false)) ∨
      (methodTypeOf method = none ∧
        consumeTier method = (UsedTier.three, true)) := by
  refine ⟨by decide, fun method => ?_⟩
  cases h : methodTypeOf method with
  | none =>
      right
      have h1 : isGroupOneMethod method = false := by
        unfold isGroupOneMethod isGroupType; rw [h]; rfl
      have h2 : isGroupTwoMethod method = false := by
        unfold isGroupTwoMethod isGroupType; rw [h]; rfl
      have h3 : isGroupThreeMethod method = false := by
        unfold isGroupThreeMethod isGroupType; rw [h]; rfl
      exact ⟨rfl, by simp [consumeTier, h1, h2, h3]⟩
  | some t =>
      left
      have ht := methodTypeOf_eq_one h
      subst ht
      have h1 : isGroupOneMethod method = true := by
        unfold isGroupOneMethod isGroupType; rw [h]; rfl
      exact ⟨rfl, by simp [consumeTier, h1]⟩

/-- C3: when the function guard denies an operation, the handler is never
invoked (unconditionally), and whenever the rate limiter admits the call (so
the denial actually occurs) the caller receives the permission-denied
rejection and exactly one rate-limit point has been charged before the denial
— the access check runs strictly after rate limiting, never instead of it. -/
theorem C3_guard_denial_after_rate_limiting (guard : String → Bool)
    (handler : String → HandlerOutcome) (st : CallState) (method : String)
    (nowMs : Nat) (hguard : guard method = false) :
    (onRequest guard handler st method nowMs).1.handlerCalls = st.handlerCalls ∧
    ((∃ rem ms, (st.limiter.consume method nowMs).2.1 = ConsumeResult.ok rem ms) →
      (onRequest guard handler st method nowMs).2 = CallResult.permissionDenied ∧
      (onRequest guard handler st method nowMs).1.limiter.chargedTotal =
        st.limiter.chargedTotal + 1) := by
  cases hres : (st.limiter.consume method nowMs).2.1 with
  | rejected ms =>
      refine ⟨by simp [onRequest, hres], ?_⟩
      rintro ⟨rem, ms', hok⟩
      cases hok
  | ok rem ms =>
      have hch := bound_consume_ok_charged st.limiter method nowMs hres
      exact ⟨by simp [onRequest, hres, hguard],
        fun _ => ⟨by simp [onRequest, hres, hguard],
                  by simp [onRequest, hres, hguard, hch]⟩⟩

/-- C3 witness: a deny-all guard on a fresh anonymous connection calling
`"getWorkspace"`: the handler is not invoked, the result is permission-denied,
and one point was charged. -/
theorem C3_guard_denial_after_rate_limiting_witness :
    (fun _ : String => false) "getWorkspace" = false ∧
    (∃ rem ms, (freshAnonymCallState.limiter.consume "getWorkspace" 0).2.1 =
      ConsumeResult.ok rem ms) ∧
    (onRequest (fun _ => false) (fun _ => HandlerOutcome.ok "r")
        freshAnonymCallState "getWorkspace" 0).1.handlerCalls =
      freshAnonymCallState.handlerCalls ∧
    (onRequest (fun _ => false) (fun _ => HandlerOutcome.ok "r")
        freshAnonymCallState "getWorkspace" 0).2 = CallResult.permissionDenied ∧
    (onRequest (fun _ => false) (fun _ => HandlerOutcome.ok "r")
        freshAnonymCallState "getWorkspace" 0).1.limiter.chargedTotal =
      freshAnonymCallState.limiter.chargedTotal + 1 :=
  ⟨rfl, ⟨9, 60000, by decide⟩,
   (C3_guard_denial_after_rate_limiting (fun _ => false)
     (fun _ => HandlerOutcome.ok "r") freshAnonymCallState "getWorkspace" 0 rfl).1,
   ((C3_guard_denial_after_rate_limiting (fun _ => false)
     (fun _ => HandlerOutcome.ok "r") freshAnonymCallState "getWorkspace" 0 rfl).2
     ⟨9, 60000, by decide⟩).1,
   ((C3_guard_denial_after_rate_limiting (fun _ => false)
     (fun _ => HandlerOutcome.ok "r") freshAnonymCallState "getWorkspace" 0 rfl).2
     ⟨9, 60000, by decide⟩).2⟩

/-- C4: the Retry-After detail of a rate-limit rejection is
`String(Math.round(msBeforeNext / 1000))` — and because a number's string is
never falsy, the `|| 1` fallback is dead: with 400 ms before the next refill
the caller is told `"0"`, not the claimed minimum of 1.  Exercised end to end:
an anonymous pool of 1 point/60 s, two calls to the same operation, the second
59.6 s into the window. -/
theorem C4_retry_after_can_be_zero :
    retryAfterHeader 400 = "0" ∧
    jsRoundDiv1000 400 = 0 ∧
    (let env : RateLimiterEnv := { anonPoints := some 1 }
     let st0 : CallState :=
       { limiter := BoundRateLimiter.anonym (AnonymRateLimiter.make env) }
     let st1 := (onRequest (fun _ => true) (fun _ => HandlerOutcome.ok "r")
       st0 "getWorkspace" 0).1
     (onRequest (fun _ => true) (fun _ => HandlerOutcome.ok "r")
         st1 "getWorkspace" 59600).2 =
       CallResult.tooManyRequests "0") := by
  decide

/-- C5: `removeServer` does not remove exactly the closed connection:
`splice(index)` with no delete count truncates the array from the match to the
end, so closing the first of three live connections empties the whole live
set, and closing the second also removes the third. -/
theorem C5_remove_truncates_live_set :
    removeServer [⟨"u1"⟩, ⟨"u2"⟩, ⟨"u3"⟩] ⟨"u1"⟩ = ([] : List GitpodServerImpl) ∧
    removeServer [⟨"u1"⟩, ⟨"u2"⟩, ⟨"u3"⟩] ⟨"u2"⟩ = [⟨"u1"⟩] ∧
    currentConnectionCount
      (handleCloseConnection { servers := [⟨"u1"⟩, ⟨"u2"⟩, ⟨"u3"⟩] } ⟨"u1"⟩) = 0 := by
  decide

/-- C6, counterexample: delivering the close signal twice for the only live
connection fires the connection-closed notification twice, not exactly
once. -/
theorem C6_counterexample_double_close_double_notifies :
    (let st0 := createProxyTarget {} ⟨"u1"⟩
     let st2 := handleCloseConnection (handleCloseConnection st0 ⟨"u1"⟩) ⟨"u1"⟩
     st2.servers = [] ∧ st2.closedEmits = 2 ∧ st2.closedEmits ≠ 1) := by
  decide

/-- C6 (amended): if the close signal is delivered twice, the connection is
removed from the live set exactly once — the second removal is a no-op on the
live set — but a connection-closed notification is emitted on each delivery,
so two notifications in total rather than one. -/
theorem C6_double_close_removes_once_notifies_twice (st : ManagerState)
    (s : GitpodServerImpl) :
    (handleCloseConnection (handleCloseConnection st s) s).servers =
      (handleCloseConnection st s).servers ∧
    (handleCloseConnection (handleCloseConnection st s) s).closedEmits =
      st.closedEmits + 2 := by
  exact ⟨by simp [handleCloseConnection, removeServer_idem], rfl⟩

/-- C7, counterexample: a handler failure that is not a structured rejection
(here a connection error carrying an internal address) reaches the caller
rethrown as-is — not wrapped into a generic internal-error rejection, and
still carrying its internal detail. -/
theorem C7_counterexample_error_not_wrapped :
    (onRequest (fun _ => true)
        (fun _ => HandlerOutcome.error "connect ECONNREFUSED 10.0.0.7:5432")
        freshAnonymCallState "getWorkspace" 0).2 =
      CallResult.error "connect ECONNREFUSED 10.0.0.7:5432" ∧
    ((onRequest (fun _ => true)
        (fun _ => HandlerOutcome.error "connect ECONNREFUSED 10.0.0.7:5432")
        freshAnonymCallState "getWorkspace" 0).2).isStructured = false := by
  decide

/-- C7 (amended): once the rate limiter admits the call and the guard allows
it, whatever the handler produces is returned or rethrown unchanged —
structured rejections propagate verbatim with an informational-level
observation, and non-structured failures are recorded at error level but also
rethrown unchanged (the pipeline itself performs no internal-error
wrapping). -/
theorem C7_handler_failures_rethrown_unchanged (guard : String → Bool)
    (handler : String → HandlerOutcome) (st : CallState) (method : String)
    (nowMs : Nat) (hguard : guard method = true)
    (hok : ∃ rem ms, (st.limiter.consume method nowMs).2.1 = ConsumeResult.ok rem ms) :
    ((onRequest guard handler st method nowMs).2 =
      match handler method with
      | HandlerOutcome.ok v => CallResult.result v
      | HandlerOutcome.responseError c m => CallResult.responseError c m
      | HandlerOutcome.error d => CallResult.error d) ∧
    ((onRequest guard handler st method nowMs).1.logs.getLast? =
      match handler method with
      | HandlerOutcome.ok _ => some LogLevel.debug
      | HandlerOutcome.responseError _ _ => some LogLevel.info
      | HandlerOutcome.error _ => some LogLevel.error) := by
  obtain ⟨rem, ms, hres⟩ := hok
  cases hh : handler method <;>
    simp [onRequest, hres, hguard, hh, List.getLast?_concat]

/-- C7 witness: the amended theorem applied to an allow-all guard, a handler
throwing the plain error `"boom"`, and a fresh anonymous connection. -/
theorem C7_handler_failures_rethrown_unchanged_witness :
    (fun _ : String => true) "getWorkspace" = true ∧
    (∃ rem ms, (freshAnonymCallState.limiter.consume "getWorkspace" 0).2.1 =
      ConsumeResult.ok rem ms) ∧
    (onRequest (fun _ => true) (fun _ => HandlerOutcome.error "boom")
        freshAnonymCallState "getWorkspace" 0).2 = CallResult.error "boom" ∧
    (onRequest (fun _ => true) (fun _ => HandlerOutcome.error "boom")
        freshAnonymCallState "getWorkspace" 0).1.logs.getLast? =
      some LogLevel.error :=
  ⟨rfl, ⟨9, 60000, by decide⟩,
   (C7_handler_failures_rethrown_unchanged (fun _ => true)
     (fun _ => HandlerOutcome.error "boom") freshAnonymCallState "getWorkspace" 0
     rfl ⟨9, 60000, by decide⟩).1,
   (C7_handler_failures_rethrown_unchanged (fun _ => true)
     (fun _ => HandlerOutcome.error "boom") freshAnonymCallState "getWorkspace" 0
     rfl ⟨9, 60000, by decide⟩).2⟩

/-- C8: a one-way (notification) message always yields the invalid-request
(protocol-violation) rejection and touches nothing: the call state — the
per-operation counters, the rate limiter's quota (ghost charge count
included), and the handler-invocation count — is returned unchanged. -/
theorem C8_notifications_always_invalid_request (st : CallState) (method : String) :
    (onNotification st method).2 = CallResult.invalidRequest ∧
    (onNotification st method).1 = st ∧
    (onNotification st method).1.handlerCalls = st.handlerCalls ∧
    (onNotification st method).1.limiter.chargedTotal = st.limiter.chargedTotal ∧
    (onNotification st method).1.apiCallCounts = st.apiCallCounts :=
  ⟨rfl, rfl, rfl, rfl, rfl⟩

/-- C9: the `gitpod_api_connection` / `gitpod_api_connection_closed` counters
are not incremented when a connection is established or closed — both stay 0
across a full create/close cycle — and are instead incremented by an observer
subscribing through `onConnectionCreated` / `onConnectionClosed`, which
creates no connection. -/
theorem C9_counters_incremented_on_subscription :
    (createProxyTarget {} ⟨"u1"⟩).apiConnectionCounter = 0 ∧
    (handleCloseConnection (createProxyTarget {} ⟨"u1"⟩) ⟨"u1"⟩).apiConnectionCounter = 0 ∧
    (handleCloseConnection (createProxyTarget {} ⟨"u1"⟩) ⟨"u1"⟩).apiConnectionClosedCounter = 0 ∧
    (onConnectionCreated {}).apiConnectionCounter = 1 ∧
    (onConnectionClosed {}).apiConnectionClosedCounter = 1 ∧
    (onConnectionCreated {}).servers = [] := by
  decide

end Gitpod
